import Mathlib

/-!
Verification development for the CSEN903 Airline knowledge-graph pipeline
(`Milestone_02/create_kg.py` and `Milestone_02/validate_queries.py`).

The two Python programs are shallowly embedded:
* `validate_queries.py`'s result comparison (`compare_results`) works on
  dynamically typed values coming from query result rows; these are
  embedded as the inductive type `Value` (Python floats are modelled as
  exact rationals, which is adequate because every tolerance question the
  spec raises is decided far away from the floating-point resolution).
* `create_kg.py`'s graph build is embedded as a trace of store actions
  (`StoreAction`) plus a graph-state semantics (`GraphState`) for the
  Cypher `MERGE`/`SET` import transaction.
-/

set_option autoImplicit false

namespace Airline

/-- A dynamically typed Python value as it occurs in validator rows:
integers, floats (modelled as exact rationals), strings, and `None`
(which `dict.get` returns for a missing key). -/
inductive Value where
  | int (n : Int)
  | float (q : ℚ)
  | str (s : String)
  | null
  deriving DecidableEq

/-- Python `==` restricted to the value kinds above: numeric values compare
by value across `int`/`float`, other kinds compare only with themselves. -/
def pyEqB : Value → Value → Bool
  | .int a, .int b => a == b
  | .float a, .float b => a == b
  | .int a, .float b => ((a : ℚ)) == b
  | .float a, .int b => a == ((b : ℚ))
  | .str a, .str b => a == b
  | .null, .null => true
  | _, _ => false

/-- The relative tolerance `1e-9` used by `math.isclose(..., rel_tol=1e-9)`. -/
def relTol : ℚ := 1 / 1000000000

/-- Python `abs` on a rational. -/
def ratAbs (q : ℚ) : ℚ := if q < 0 then -q else q

/-- Python `max` on two rationals. -/
def ratMax (a b : ℚ) : ℚ := if a ≤ b then b else a

/-- `math.isclose(a, b, rel_tol=1e-9)` with the default `abs_tol = 0`:
`abs (a - b) ≤ rel_tol * max (abs a) (abs b)`. -/
def isclose (a b : ℚ) : Bool := ratAbs (a - b) ≤ relTol * ratMax (ratAbs a) (ratAbs b)

/-- One field comparison of `compare_results` (validate_queries.py lines
124-130): if the expected value is a float and the actual value is numeric,
use `math.isclose` with relative tolerance `1e-9`; otherwise fall back to
Python `!=` (a mismatch iff `pyEqB` is false). -/
def fieldMatches (expVal actVal : Value) : Bool :=
  match expVal, actVal with
  | .float e, .float a => isclose a e
  | .float e, .int a => isclose ((a : ℚ)) e
  | e, a => pyEqB a e

/-- A query result row or expected row: an insertion-ordered mapping from
field name to value (a Python dict as produced by `dict(record)` or written
literally in `EXPECTED_RESULTS`). -/
abbrev PyRow := List (String × Value)

/-- `act_row.get(key)`: Python `dict.get` returns `None` for a missing key. -/
def rowGet (r : PyRow) (k : String) : Value :=
  match r.find? (fun p => p.1 == k) with
  | some p => p.2
  | none => .null

/-- One mismatch diagnostic printed by `compare_results`: row index, field
key, expected value, actual value. -/
structure Mismatch where
  row : Nat
  key : String
  expected : Value
  got : Value
  deriving DecidableEq

/-- The inner field loop of `compare_results` (lines 121-135): walk the
expected row's fields in order and return the first field that fails to
match (its key, expected value and actual value), or `none` if every field
matches.  The Python loop records the mismatch, sets `all_match = False`
and `break`s, so fields after the first failing one are never inspected. -/
def firstMismatch (act : PyRow) : List (String × Value) → Option (String × Value × Value)
  | [] => none
  | (k, ev) :: rest =>
    let av := rowGet act k
    if fieldMatches ev av then firstMismatch act rest
    else some (k, ev, av)

/-- The outer row loop of `compare_results` over `zip(actual, expected)`,
with `i` the index of the first row: collects the printed mismatch records
(one per mismatched row) and the final `all_match` flag. -/
def compareLoop : Nat → List PyRow → List PyRow → List Mismatch × Bool
  | _, [], _ => ([], true)
  | _, _ :: _, [] => ([], true)
  | i, a :: as, e :: es =>
    let rest := compareLoop (i + 1) as es
    match firstMismatch a e with
    | none => rest
    | some (k, ev, av) => (⟨i, k, ev, av⟩ :: rest.1, false)

/-- Result of `compare_results`: either the early length-mismatch return
(line 114-116) or the mismatch diagnostics plus the PASS/FAIL flag. -/
inductive CmpResult where
  | lengthMismatch (nActual nExpected : Nat)
  | rows (mismatches : List Mismatch) (pass : Bool)
  deriving DecidableEq

/-- `compare_results(query_num, actual, expected)` of validate_queries.py
(lines 111-140), with the console output abstracted into the returned
mismatch list and PASS/FAIL flag. -/
def compare_results (actual expected : List PyRow) : CmpResult :=
  if actual.length ≠ expected.length then .lengthMismatch actual.length expected.length
  else
    let r := compareLoop 0 actual expected
    .rows r.1 r.2

/-- First-biased choice on options (used to state "last writer wins"
overlay semantics of repeated `MERGE ... SET`). -/
def orO {α : Type} : Option α → Option α → Option α
  | some v, _ => some v
  | none, b => b

/-- Attributes unconditionally `SET` on a `Passenger` node by the import
transaction (create_kg.py lines 90-92). -/
structure PAttrs where
  loyalty_program_level : String
  generation : String
  deriving DecidableEq

/-- Attributes unconditionally `SET` on a `Journey` node by the import
transaction (create_kg.py lines 94-99); the four numeric ones are stored
through Cypher `toInteger`. -/
structure JAttrs where
  food_satisfaction_score : Int
  arrival_delay_minutes : Int
  actual_flown_miles : Int
  number_of_legs : Int
  passenger_class : String
  deriving DecidableEq

/-- A raw CSV row restricted to the 13 required columns; `none` models a
missing value (pandas `NaN`).  String columns hold strings, the four
journey numeric columns hold numbers (pandas floats, modelled as exact
rationals). -/
structure RawRow where
  origin_station_code : Option String
  destination_station_code : Option String
  flight_number : Option String
  fleet_type_description : Option String
  record_locator : Option String
  loyalty_program_level : Option String
  generation : Option String
  feedback_ID : Option String
  food_satisfaction_score : Option ℚ
  arrival_delay_minutes : Option ℚ
  actual_flown_miles : Option ℚ
  number_of_legs : Option ℚ
  passenger_class : Option String
  deriving DecidableEq

/-- One normalized record of the `$batch` parameter: the `row_data`
dictionary built in create_kg.py lines 111-125.  String columns went
through `str(...)`, the four journey numeric columns are passed through
unchanged (still floats at this point). -/
structure Row where
  origin_station_code : String
  destination_station_code : String
  flight_number : String
  fleet_type_description : String
  record_locator : String
  loyalty_program_level : String
  generation : String
  feedback_ID : String
  food_satisfaction_score : ℚ
  arrival_delay_minutes : ℚ
  actual_flown_miles : ℚ
  number_of_legs : ℚ
  passenger_class : String
  deriving DecidableEq

/-- `df.fillna(0)` (line 70) followed by the `row_data` construction
(lines 111-125): a missing string column becomes the string `"0"`
(`str(0)`), a missing numeric column becomes the number `0`.  This is a
pure function of the raw row — it performs no store operation. -/
def normalizeRow (r : RawRow) : Row :=
  { origin_station_code := r.origin_station_code.getD "0"
    destination_station_code := r.destination_station_code.getD "0"
    flight_number := r.flight_number.getD "0"
    fleet_type_description := r.fleet_type_description.getD "0"
    record_locator := r.record_locator.getD "0"
    loyalty_program_level := r.loyalty_program_level.getD "0"
    generation := r.generation.getD "0"
    feedback_ID := r.feedback_ID.getD "0"
    food_satisfaction_score := r.food_satisfaction_score.getD 0
    arrival_delay_minutes := r.arrival_delay_minutes.getD 0
    actual_flown_miles := r.actual_flown_miles.getD 0
    number_of_legs := r.number_of_legs.getD 0
    passenger_class := r.passenger_class.getD "0" }

/-- Cypher `toInteger` applied to a float: truncation toward zero
(floor for nonnegative values, ceiling for negative ones). -/
def toInteger (q : ℚ) : Int := if 0 ≤ q then ⌊q⌋ else ⌈q⌉

/-- The composite lookup key of a `Flight` node:
`(flight_number, fleet_type_description)` (lines 82-85). -/
def flightKey (r : Row) : String × String := (r.flight_number, r.fleet_type_description)

/-- The attribute values `SET` on the merged `Passenger` node for one row. -/
def passengerAttrs (r : Row) : PAttrs :=
  { loyalty_program_level := r.loyalty_program_level
    generation := r.generation }

/-- The attribute values `SET` on the merged `Journey` node for one row:
the four numerics go through `toInteger`, `passenger_class` stays a string. -/
def journeyAttrs (r : Row) : JAttrs :=
  { food_satisfaction_score := toInteger r.food_satisfaction_score
    arrival_delay_minutes := toInteger r.arrival_delay_minutes
    actual_flown_miles := toInteger r.actual_flown_miles
    number_of_legs := toInteger r.number_of_legs
    passenger_class := r.passenger_class }

/-- The graph held by the store: node sets keyed by their identity keys
(`Airport` by station code, `Flight` by its composite key), attribute maps
for the two node kinds that carry non-key attributes (`none` = no such
node), and the four relationship sets, each keyed by its
(source key, target key) pair. -/
@[ext]
structure GraphState where
  airports : Finset String
  flights : Finset (String × String)
  passengers : String → Option PAttrs
  journeys : String → Option JAttrs
  departs_from : Finset ((String × String) × String)
  arrives_at : Finset ((String × String) × String)
  took : Finset (String × String)
  on_rel : Finset (String × (String × String))

/-- The graph with no nodes and no relationships. -/
def emptyGraph : GraphState :=
  { airports := ∅
    flights := ∅
    passengers := fun _ => none
    journeys := fun _ => none
    departs_from := ∅
    arrives_at := ∅
    took := ∅
    on_rel := ∅ }

/-- The effect of the import transaction's body (create_kg.py lines 76-103)
for a single `UNWIND`-bound row: `MERGE` creates each node or relationship
if its identity key is absent and reuses it otherwise, and the `SET`
clauses unconditionally overwrite the Passenger/Journey attributes. -/
def applyRow (s : GraphState) (r : Row) : GraphState :=
  { airports := insert r.origin_station_code (insert r.destination_station_code s.airports)
    flights := insert (flightKey r) s.flights
    passengers := fun k => if k = r.record_locator then some (passengerAttrs r) else s.passengers k
    journeys := fun k => if k = r.feedback_ID then some (journeyAttrs r) else s.journeys k
    departs_from := insert (flightKey r, r.origin_station_code) s.departs_from
    arrives_at := insert (flightKey r, r.destination_station_code) s.arrives_at
    took := insert (r.record_locator, r.feedback_ID) s.took
    on_rel := insert (r.feedback_ID, flightKey r) s.on_rel }

/-- The effect of running the import transaction over a list of rows in
order (`UNWIND $batch AS row` processes the batch sequentially; running
several batches one after the other concatenates their row lists). -/
def applyRows (s : GraphState) (rows : List Row) : GraphState := rows.foldl applyRow s

/-- The cumulative contribution of a row list, independent of the starting
state: node/relationship key sets together with the last-writer attribute
assignment.  `overlay a s` lays that contribution over a base state. -/
def overlay (a s : GraphState) : GraphState :=
  { airports := s.airports ∪ a.airports
    flights := s.flights ∪ a.flights
    passengers := fun k => orO (a.passengers k) (s.passengers k)
    journeys := fun k => orO (a.journeys k) (s.journeys k)
    departs_from := s.departs_from ∪ a.departs_from
    arrives_at := s.arrives_at ∪ a.arrives_at
    took := s.took ∪ a.took
    on_rel := s.on_rel ∪ a.on_rel }

/-- The contribution of a row list on its own (applied to the empty graph,
later rows taking precedence for attribute writes). -/
def summary (rows : List Row) : GraphState :=
  rows.foldr (fun r a => overlay a (applyRow emptyGraph r)) emptyGraph

/-- The `Passenger` attribute values written by the last row of `rows`
whose `record_locator` is `k` (`none` when no row carries that key). -/
def lastPassengerWrite (rows : List Row) (k : String) : Option PAttrs :=
  rows.foldr
    (fun r acc => orO acc (if k = r.record_locator then some (passengerAttrs r) else none)) none

/-- The `Journey` attribute values written by the last row of `rows` whose
`feedback_ID` is `k` (`none` when no row carries that key). -/
def lastJourneyWrite (rows : List Row) (k : String) : Option JAttrs :=
  rows.foldr
    (fun r acc => orO acc (if k = r.feedback_ID then some (journeyAttrs r) else none)) none

/-- One store interaction issued by `create_kg.py`. -/
inductive StoreAction where
  | createDriver
  | clearDatabase
  | createConstraint (name : String)
  | createIndex (name : String)
  | runImportBatch (batch : List Row)
  | closeDriver
  deriving DecidableEq

/-- The batch size fixed at create_kg.py line 105. -/
def batchSize : Nat := 500

/-- The batching loop of `load_csv_data` (lines 106-136): append each row
to the in-memory batch, flush the batch as one transaction when it reaches
`batchSize`, and flush the final partial batch if it is non-empty. -/
def loadBatchLoop : List Row → List Row → List (List Row) → List (List Row)
  | [], batch, acc => if batch.isEmpty then acc else acc ++ [batch]
  | r :: rest, batch, acc =>
    let batch' := batch ++ [r]
    if batchSize ≤ batch'.length then loadBatchLoop rest [] (acc ++ [batch'])
    else loadBatchLoop rest batch' acc

/-- The list of batches `load_csv_data` submits, in submission order. -/
def mkBatches (rows : List Row) : List (List Row) := loadBatchLoop rows [] []

/-- The required-column list of create_kg.py lines 55-60. -/
def requiredCols : List String :=
  ["origin_station_code", "destination_station_code", "flight_number",
   "fleet_type_description", "record_locator", "loyalty_program_level",
   "generation", "food_satisfaction_score", "arrival_delay_minutes",
   "actual_flown_miles", "number_of_legs", "passenger_class", "feedback_ID"]

/-- `missing = [col for col in required_cols if col not in df.columns]`
(line 63). -/
def missingCols (cols : List String) : List String :=
  requiredCols.filter (fun c => !(cols.contains c))

/-- The externally observable input of a build run: whether the CSV file
exists, its header, and its rows. -/
structure BuildInput where
  csvExists : Bool
  cols : List String
  rows : List RawRow

/-- How `load_csv_data` returns (create_kg.py lines 43-67): every path is a
normal `return` — the missing-file and missing-column paths print an error
and return early, the success path returns after the import loop.  No path
raises. -/
inductive LoadStatus where
  | fileNotFound
  | schemaMismatch (missing : List String)
  | completed
  deriving DecidableEq

/-- Which of the three return paths `load_csv_data` takes. -/
def load_csv_status (inp : BuildInput) : LoadStatus :=
  if !inp.csvExists then .fileNotFound
  else if !(missingCols inp.cols).isEmpty then .schemaMismatch (missingCols inp.cols)
  else .completed

/-- The store interactions issued by `load_csv_data` (lines 43-136): none
on the early-return paths, otherwise one `session.run(import_query, ...)`
per batch. -/
def load_csv_data (inp : BuildInput) : List StoreAction :=
  if !inp.csvExists then []
  else if !(missingCols inp.cols).isEmpty then []
  else (mkBatches (inp.rows.map normalizeRow)).map .runImportBatch

/-- The four declarations of `create_constraints` (lines 34-41). -/
def constraintActions : List StoreAction :=
  [.createConstraint "passenger_id", .createConstraint "journey_id",
   .createConstraint "airport_id", .createIndex "flight_idx"]

/-- The store interactions of the build phase in `__main__` order
(lines 144-146): wipe, constraints, then the import batches. -/
def buildActions (inp : BuildInput) : List StoreAction :=
  .clearDatabase :: (constraintActions ++ load_csv_data inp)

/-- The state transformation a store action performs on the graph:
`MATCH (n) DETACH DELETE n` empties the graph, constraint/index
declarations and driver management leave the data untouched, and an import
batch applies the merge transaction to its rows in order. -/
def applyAction (s : GraphState) : StoreAction → GraphState
  | .clearDatabase => emptyGraph
  | .runImportBatch b => applyRows s b
  | _ => s

/-- Running a trace of store actions against an initial graph. -/
def applyTrace (s : GraphState) (tr : List StoreAction) : GraphState := tr.foldl applyAction s

/-- Default-whitespace characters stripped by Python `str.strip` (the ones
that occur in a text config line). -/
def isPySpace (c : Char) : Bool :=
  c == ' ' || c == '\t' || c == '\n' || c == '\r'

/-- Python `line.strip()` on a line of characters. -/
def pyStrip (l : List Char) : List Char :=
  ((l.dropWhile isPySpace).reverse.dropWhile isPySpace).reverse

/-- Python `s.split('=', 1)` when `s` contains `'='`: the characters before
the first `'='` and everything after it; `none` when `s` has no `'='`. -/
def splitEq : List Char → Option (List Char × List Char)
  | [] => none
  | c :: rest =>
    if c = '=' then some ([], rest)
    else
      match splitEq rest with
      | some (k, v) => some (c :: k, v)
      | none => none

/-- `config[key] = value` on a Python dict modelled as an insertion-ordered
association list: overwrite in place if the key exists, else append. -/
def dictInsert (d : List (String × String)) (k v : String) : List (String × String) :=
  if d.any (fun p => p.1 == k) then d.map (fun p => if p.1 == k then (k, v) else p)
  else d ++ [(k, v)]

/-- The body of `load_config`'s line loop (both programs, identical code):
a line containing `'='` is stripped and split at the first `'='` into one
key/value pair; a line without `'='` is ignored.  (The inner `none` branch
is unreachable: a stripped line still contains every `'='` of the raw
line.) -/
def configLine (d : List (String × String)) (line : List Char) : List (String × String) :=
  if line.contains '=' then
    match splitEq (pyStrip line) with
    | some (k, v) => dictInsert d (String.mk k) (String.mk v)
    | none => d
  else d

/-- `load_config` (create_kg.py lines 7-18, validate_queries.py lines
6-17): `none` models `FileNotFoundError` (the function prints an error and
returns `None`); otherwise the line loop builds the config dict. -/
def load_config : Option (List (List Char)) → Option (List (String × String))
  | none => none
  | some lines => some (lines.foldl configLine [])

/-- What a `create_kg.py` run observably does, given the store calls
themselves succeed: the store/driver interactions issued, the
control-flow-relevant console messages (error prints and the final success
print; per-batch progress prints are not modelled), and whether the run
reached the final success print. -/
structure RunReport where
  actions : List StoreAction
  messages : List String
  printedSuccess : Bool
  deriving DecidableEq

/-- The console messages of `load_csv_data` that mark which return path it
took. -/
def loadMessages (inp : BuildInput) : List String :=
  match load_csv_status inp with
  | .fileNotFound => ["Error: CSV file not found at Airline_surveys_sample.csv"]
  | .schemaMismatch missing =>
      ["CRITICAL ERROR: Missing columns: " ++ String.intercalate ", " missing]
  | .completed => []

/-- `create_kg.py`'s `__main__` block (lines 138-151): abort silently after
an error print when the config file is absent (and on Python's falsy empty
dict); otherwise create the driver, wipe, declare constraints, load, close
the driver and print the success message.  The loader never raises, so with
working store calls the `except` branch is never taken. -/
def kg_main (cfgFile : Option (List (List Char))) (inp : BuildInput) : RunReport :=
  match load_config cfgFile with
  | none => { actions := [], messages := ["Error: config.txt not found."], printedSuccess := false }
  | some cfg =>
    if cfg.isEmpty then { actions := [], messages := [], printedSuccess := false }
    else
      { actions := .createDriver :: (buildActions inp ++ [.closeDriver])
        messages := loadMessages inp ++ ["Knowledge Graph created successfully!"]
        printedSuccess := true }

/-- One driver/store interaction of `validate_queries.py`. -/
inductive ValidateAction where
  | createDriver
  | runQuery (q : Nat)
  | closeDriver
  deriving DecidableEq

/-- `run_validation` (validate_queries.py lines 142-155): return with no
driver interaction when the config is `None` (or Python-falsy empty);
otherwise create the driver, run the five catalog queries in order, close
the driver. -/
def run_validation (cfgFile : Option (List (List Char))) : List ValidateAction :=
  match load_config cfgFile with
  | none => []
  | some cfg =>
    if cfg.isEmpty then []
    else .createDriver :: ((List.range 5).map (fun i => .runQuery (i + 1)) ++ [.closeDriver])

theorem ratAbs_eq_abs (q : ℚ) : ratAbs q = |q| := by
  rw [ratAbs, abs]
  rcases lt_or_le q 0 with h | h
  · rw [if_pos h, sup_eq_right.mpr (by linarith)]
  · rw [if_neg (not_lt.mpr h), sup_eq_left.mpr (by linarith)]

theorem ratMax_eq_max (a b : ℚ) : ratMax a b = max a b := (max_def a b).symm

theorem isclose_iff (a b : ℚ) :
    isclose a b = true ↔ |a - b| ≤ relTol * max |a| |b| := by
  simp [isclose, ratAbs_eq_abs, ratMax_eq_max]

theorem firstMismatch_eq_none_iff (act : PyRow) (e : List (String × Value)) :
    firstMismatch act e = none ↔ ∀ kv ∈ e, fieldMatches kv.2 (rowGet act kv.1) = true := by
  induction e with
  | nil => simp [firstMismatch]
  | cons kv rest ih =>
    obtain ⟨k, ev⟩ := kv
    by_cases h : fieldMatches ev (rowGet act k) = true
    · simp [firstMismatch, h, ih]
    · simp [firstMismatch, h]

theorem compareLoop_eq (as : List PyRow) : ∀ (es : List PyRow) (i : Nat),
    compareLoop i as es =
      ((List.enumFrom i (as.zip es)).filterMap
        (fun x => (firstMismatch x.2.1 x.2.2).map (fun m => ⟨x.1, m.1, m.2.1, m.2.2⟩)),
       (as.zip es).all (fun p => (firstMismatch p.1 p.2).isNone)) := by
  induction as with
  | nil => intro es i; simp [compareLoop]
  | cons a as ih =>
    intro es i
    cases es with
    | nil => simp [compareLoop]
    | cons e es =>
      cases h : firstMismatch a e with
      | none => simp [compareLoop, h, ih es (i + 1), List.enumFrom_cons]
      | some m =>
        obtain ⟨k, ev, av⟩ := m
        simp [compareLoop, h, ih es (i + 1), List.enumFrom_cons]

/-- C2: whenever the expected field value is a float, a numeric actual
value is accepted iff `|a - b| ≤ 1e-9 * max |a| |b|` (the standard
is-close test with relative tolerance `1e-9`); in particular expected
`2.7911646586345387` against actual `2.791164658634539` is accepted, while
two values of magnitude around 2.79 differing by 0.01 are rejected. -/
theorem float_expected_uses_relative_tolerance :
    (∀ e a : ℚ, fieldMatches (.float e) (.float a) = true ↔ |a - e| ≤ relTol * max |a| |e|)
    ∧ (∀ e : ℚ, ∀ n : Int, fieldMatches (.float e) (.int n) = true ↔
        |(n : ℚ) - e| ≤ relTol * max |(n : ℚ)| |e|)
    ∧ fieldMatches (.float 2.7911646586345387) (.float 2.791164658634539) = true
    ∧ fieldMatches (.float 2.7911646586345387) (.float 2.8011646586345387) = false := by
  refine ⟨fun e a => ?_, fun e n => ?_, ?_, ?_⟩
  · simpa [fieldMatches] using isclose_iff a e
  · simpa [fieldMatches] using isclose_iff ((n : ℚ)) e
  · norm_num [fieldMatches, isclose, ratAbs, ratMax, relTol]
  · norm_num [fieldMatches, isclose, ratAbs, ratMax, relTol]

/-- C5 counterexample: an expected integer `42` against an actual float
`42.0` is accepted by the comparison (Python `!=` compares `int` and
`float` numerically), contradicting the claim that any type difference is
reported as a mismatch. -/
theorem int_expected_float_actual_accepted :
    fieldMatches (.int 42) (.float 42) = true := by
  norm_num [fieldMatches, pyEqB]

/-- C5 (amended): when the expected value is not a float the comparison is
Python equality: values of different kinds mismatch — expected integer `42`
against actual string `"42"` is a mismatch — except that an expected
integer against an actual float is compared numerically (so expected `42`
against actual `42.0` is accepted); same-kind values compare by value. -/
theorem nonfloat_expected_uses_python_equality :
    fieldMatches (.int 42) (.str "42") = false
    ∧ (∀ n : Int, ∀ q : ℚ, (fieldMatches (.int n) (.float q) = true ↔ (n : ℚ) = q))
    ∧ (∀ n : Int, ∀ s : String, fieldMatches (.int n) (.str s) = false)
    ∧ (∀ n : Int, fieldMatches (.int n) Value.null = false)
    ∧ (∀ s : String, ∀ n : Int, fieldMatches (.str s) (.int n) = false)
    ∧ (∀ s : String, ∀ q : ℚ, fieldMatches (.str s) (.float q) = false)
    ∧ (∀ s : String, fieldMatches (.str s) Value.null = false)
    ∧ (∀ a b : String, fieldMatches (.str a) (.str b) = true ↔ a = b)
    ∧ (∀ a b : Int, fieldMatches (.int a) (.int b) = true ↔ a = b) := by
  refine ⟨by decide, fun n q => ?_, fun n s => ?_, fun n => ?_, fun s n => ?_,
    fun s q => ?_, fun s => ?_, fun a b => ?_, fun a b => ?_⟩
  · simp only [fieldMatches, pyEqB, beq_iff_eq]
    exact eq_comm
  · simp [fieldMatches, pyEqB]
  · simp [fieldMatches, pyEqB]
  · simp [fieldMatches, pyEqB]
  · simp [fieldMatches, pyEqB]
  · simp [fieldMatches, pyEqB]
  · simp only [fieldMatches, pyEqB, beq_iff_eq]
    exact eq_comm
  · simp only [fieldMatches, pyEqB, beq_iff_eq]
    exact eq_comm

/-- The single-row input pair on which the C4 counterexample is evaluated:
both fields `"a"` and `"b"` of row 0 disagree with the expected row. -/
def c4Actual : List PyRow := [[("a", .int 1), ("b", .int 1)]]

/-- Expected counterpart of `c4Actual`. -/
def c4Expected : List PyRow := [[("a", .int 2), ("b", .int 2)]]

/-- C4 counterexample: on `c4Actual`/`c4Expected` the field `"b"` of row 0
also mismatches, yet the validator records only the mismatch at `"a"` —
the `break` at the first failing field skips the remaining fields of the
mismatched row, so the claim that all remaining fields of that row are
still checked and recorded is false. -/
theorem validator_skips_rest_of_mismatched_row :
    compare_results c4Actual c4Expected = .rows [⟨0, "a", .int 2, .int 1⟩] false
    ∧ fieldMatches (.int 2) (rowGet [("a", .int 1), ("b", .int 1)] "b") = false := by
  constructor
  · decide
  · decide

/-- C4 (amended): with equal lengths the validator records, for each
mismatched row, exactly the first mismatching field of that row — it keeps
checking all remaining rows after a mismatch, but skips the remaining
fields of the row that already mismatched — and the overall result is PASS
iff every row matches on every expected field. -/
theorem compare_results_first_mismatch_per_row
    (actual expected : List PyRow) (h : actual.length = expected.length) :
    compare_results actual expected =
      .rows ((List.enumFrom 0 (actual.zip expected)).filterMap
              (fun x => (firstMismatch x.2.1 x.2.2).map (fun m => ⟨x.1, m.1, m.2.1, m.2.2⟩)))
            ((actual.zip expected).all fun p => (firstMismatch p.1 p.2).isNone)
    ∧ (((actual.zip expected).all fun p => (firstMismatch p.1 p.2).isNone) = true ↔
        ∀ p ∈ actual.zip expected, ∀ kv ∈ p.2, fieldMatches kv.2 (rowGet p.1 kv.1) = true) := by
  constructor
  · simp only [compare_results, h, ne_eq, not_true_eq_false, if_false, compareLoop_eq]
  · simp [List.all_eq_true, Option.isNone_iff_eq_none, firstMismatch_eq_none_iff]

/-- Two-row input showing the validator continuing past a mismatched row. -/
def c4wActual : List PyRow := [[("x", .int 1)], [("y", .int 5)]]

/-- Expected counterpart of `c4wActual`: row 0 mismatches, row 1 matches. -/
def c4wExpected : List PyRow := [[("x", .int 9)], [("y", .int 5)]]

/-- Witness for the amended C4 theorem at a concrete two-row input: the
lengths agree, row 0's first mismatch is recorded, row 1 is still checked
(and matches), and the overall result is FAIL. -/
theorem compare_results_first_mismatch_per_row_witness :
    c4wActual.length = c4wExpected.length
    ∧ compare_results c4wActual c4wExpected = .rows [⟨0, "x", .int 9, .int 1⟩] false := by
  refine ⟨rfl, ?_⟩
  rw [(compare_results_first_mismatch_per_row c4wActual c4wExpected rfl).1]
  decide

theorem overlay_emptyGraph (s : GraphState) : overlay emptyGraph s = s := by
  obtain ⟨a1, a2, a3, a4, a5, a6, a7, a8⟩ := s
  simp [overlay, emptyGraph, orO]

theorem overlay_applyRow (a s : GraphState) (r : Row) :
    overlay a (applyRow s r) = overlay (overlay a (applyRow emptyGraph r)) s := by
  obtain ⟨a1, a2, a3, a4, a5, a6, a7, a8⟩ := a
  obtain ⟨s1, s2, s3, s4, s5, s6, s7, s8⟩ := s
  simp only [applyRow, overlay, emptyGraph, GraphState.mk.injEq]
  refine ⟨?_, ?_, ?_, ?_, ?_, ?_, ?_, ?_⟩
  · ext x; simp [Finset.mem_union, Finset.mem_insert]; tauto
  · ext x; simp [Finset.mem_union, Finset.mem_insert]; tauto
  · funext k
    cases h : a3 k <;> by_cases hk : k = r.record_locator <;> simp [orO, h, hk]
  · funext k
    cases h : a4 k <;> by_cases hk : k = r.feedback_ID <;> simp [orO, h, hk]
  · ext x; simp [Finset.mem_union, Finset.mem_insert]; tauto
  · ext x; simp [Finset.mem_union, Finset.mem_insert]; tauto
  · ext x; simp [Finset.mem_union, Finset.mem_insert]; tauto
  · ext x; simp [Finset.mem_union, Finset.mem_insert]; tauto

theorem applyRows_eq_overlay (l : List Row) : ∀ s : GraphState,
    applyRows s l = overlay (summary l) s := by
  induction l with
  | nil => intro s; rw [applyRows, List.foldl_nil, summary, List.foldr_nil, overlay_emptyGraph]
  | cons r t ih =>
    intro s
    rw [applyRows, List.foldl_cons, summary, List.foldr_cons]
    have h1 : List.foldl applyRow (applyRow s r) t = applyRows (applyRow s r) t := rfl
    have h2 : List.foldr (fun r a => overlay a (applyRow emptyGraph r)) emptyGraph t
        = summary t := rfl
    rw [h1, h2, ih (applyRow s r)]
    exact overlay_applyRow (summary t) s r

theorem overlay_self (a s : GraphState) : overlay a (overlay a s) = overlay a s := by
  obtain ⟨a1, a2, a3, a4, a5, a6, a7, a8⟩ := a
  obtain ⟨s1, s2, s3, s4, s5, s6, s7, s8⟩ := s
  simp only [overlay, GraphState.mk.injEq]
  refine ⟨?_, ?_, ?_, ?_, ?_, ?_, ?_, ?_⟩
  · simp [Finset.union_assoc]
  · simp [Finset.union_assoc]
  · funext k
    cases h : a3 k <;> simp [orO, h]
  · funext k
    cases h : a4 k <;> simp [orO, h]
  · simp [Finset.union_assoc]
  · simp [Finset.union_assoc]
  · simp [Finset.union_assoc]
  · simp [Finset.union_assoc]

theorem summary_passengers (l : List Row) (k : String) :
    (summary l).passengers k = lastPassengerWrite l k := by
  induction l with
  | nil => rfl
  | cons r t ih =>
    show orO ((summary t).passengers k) ((applyRow emptyGraph r).passengers k)
        = lastPassengerWrite (r :: t) k
    rw [ih]
    rfl

theorem summary_journeys (l : List Row) (k : String) :
    (summary l).journeys k = lastJourneyWrite l k := by
  induction l with
  | nil => rfl
  | cons r t ih =>
    show orO ((summary t).journeys k) ((applyRow emptyGraph r).journeys k)
        = lastJourneyWrite (r :: t) k
    rw [ih]
    rfl

/-- C1: re-executing the MERGE-based import transaction over rows already
processed is a no-op — the resulting graph (hence every node and
relationship count) is identical, whether the rows are replayed on the
final state or simply appended to the input — and the Passenger/Journey
non-key attributes of the loaded state are exactly the values written by
the last row (hence the last batch) that carried each identity key. -/
theorem import_is_idempotent (s : GraphState) (l : List Row) :
    applyRows (applyRows s l) l = applyRows s l
    ∧ applyRows s (l ++ l) = applyRows s l
    ∧ (∀ k, (applyRows s l).passengers k = orO (lastPassengerWrite l k) (s.passengers k))
    ∧ (∀ k, (applyRows s l).journeys k = orO (lastJourneyWrite l k) (s.journeys k)) := by
  have h1 : applyRows (applyRows s l) l = applyRows s l := by
    rw [applyRows_eq_overlay, applyRows_eq_overlay]
    exact overlay_self _ _
  refine ⟨h1, ?_, fun k => ?_, fun k => ?_⟩
  · rw [applyRows, List.foldl_append]
    exact h1
  · rw [applyRows_eq_overlay]
    show orO ((summary l).passengers k) (s.passengers k) = _
    rw [summary_passengers]
  · rw [applyRows_eq_overlay]
    show orO ((summary l).journeys k) (s.journeys k) = _
    rw [summary_journeys]

theorem loadBatchLoop_length (rows : List Row) : ∀ (batch : List Row) (acc : List (List Row)),
    batch.length < batchSize →
    (loadBatchLoop rows batch acc).length
      = acc.length + (batch.length + rows.length + 499) / 500 := by
  induction rows with
  | nil =>
    intro batch acc h
    by_cases hb : batch.isEmpty
    · have h0 : batch.length = 0 := by simpa using congrArg List.length (List.isEmpty_iff.mp hb)
      simp [loadBatchLoop, hb, h0]
    · have h1 : 1 ≤ batch.length := by
        rcases Nat.eq_zero_or_pos batch.length with h0 | h0
        · exact absurd (List.isEmpty_iff.mpr (List.length_eq_zero.mp h0)) hb
        · exact h0
      have h2 : batch.length + 0 + 499 = (batch.length - 1) + 500 := by omega
      rw [loadBatchLoop, if_neg (by simpa using hb)]
      simp only [List.length_nil]
      rw [h2, Nat.add_div_right _ (by norm_num),
        Nat.div_eq_of_lt (by simp [batchSize] at h; omega)]
      simp
  | cons r rest ih =>
    intro batch acc h
    rw [loadBatchLoop]
    by_cases hf : batchSize ≤ (batch ++ [r]).length
    · rw [if_pos hf, ih [] (acc ++ [batch ++ [r]]) (by simp [batchSize])]
      have hl : batch.length + 1 = 500 := by
        simp [batchSize] at hf h ⊢
        omega
      have h2 : batch.length + (rest.length + 1) + 499 = (0 + rest.length + 499) + 500 := by
        omega
      rw [List.length_cons, h2, Nat.add_div_right _ (by norm_num)]
      simp
      omega
    · rw [if_neg hf, ih (batch ++ [r]) acc (by simp [batchSize] at hf ⊢; omega)]
      congr 1
      simp
      omega

theorem loadBatchLoop_flatten (rows : List Row) : ∀ (batch : List Row) (acc : List (List Row)),
    (loadBatchLoop rows batch acc).flatten = acc.flatten ++ batch ++ rows := by
  induction rows with
  | nil =>
    intro batch acc
    by_cases hb : batch.isEmpty
    · rw [loadBatchLoop, if_pos (by simpa using hb), List.isEmpty_iff.mp hb]
      simp
    · rw [loadBatchLoop, if_neg (by simpa using hb)]
      simp
  | cons r rest ih =>
    intro batch acc
    rw [loadBatchLoop]
    by_cases hf : batchSize ≤ (batch ++ [r]).length
    · rw [if_pos hf, ih]
      simp
    · rw [if_neg hf, ih]
      simp

theorem loadBatchLoop_mem (rows : List Row) : ∀ (batch : List Row) (acc : List (List Row))
    (b : List Row),
    (∀ x ∈ acc, x ≠ [] ∧ x.length ≤ batchSize) →
    batch.length < batchSize →
    b ∈ loadBatchLoop rows batch acc → b ≠ [] ∧ b.length ≤ batchSize := by
  induction rows with
  | nil =>
    intro batch acc b hacc hlt hb
    by_cases he : batch.isEmpty
    · rw [loadBatchLoop, if_pos (by simpa using he)] at hb
      exact hacc b hb
    · rw [loadBatchLoop, if_neg (by simpa using he)] at hb
      rcases List.mem_append.mp hb with h | h
      · exact hacc b h
      · have hbb : b = batch := by simpa using h
        subst hbb
        exact ⟨fun h0 => he (List.isEmpty_iff.mpr h0), le_of_lt hlt⟩
  | cons r rest ih =>
    intro batch acc b hacc hlt hb
    rw [loadBatchLoop] at hb
    by_cases hf : batchSize ≤ (batch ++ [r]).length
    · rw [if_pos hf] at hb
      refine ih [] (acc ++ [batch ++ [r]]) b ?_ (by simp [batchSize]) hb
      intro x hx
      rcases List.mem_append.mp hx with h | h
      · exact hacc x h
      · have hxx : x = batch ++ [r] := by simpa using h
        subst hxx
        refine ⟨by simp, ?_⟩
        simp only [List.length_append, List.length_cons, List.length_nil]
        omega
    · rw [if_neg hf] at hb
      exact ih (batch ++ [r]) acc b hacc (by simp [batchSize] at hf ⊢; omega) hb

/-- C6: the loader accumulates normalized records into batches of the
configured batch size (the constant 500 of line 105) and issues exactly one
store transaction per full batch plus one for a non-empty final partial
batch: on `n` input rows it runs `(n + 499) / 500 = ⌈n / 500⌉`
transactions, whose batches concatenate back to the normalized input in
order (so each covers at most 500 consecutive records), each non-empty and
of size at most 500. -/
theorem loader_runs_one_transaction_per_batch (inp : BuildInput)
    (hex : inp.csvExists = true) (hcols : missingCols inp.cols = []) :
    load_csv_data inp = (mkBatches (inp.rows.map normalizeRow)).map .runImportBatch
    ∧ (load_csv_data inp).length = (inp.rows.length + 499) / 500
    ∧ (mkBatches (inp.rows.map normalizeRow)).flatten = inp.rows.map normalizeRow
    ∧ (∀ b ∈ mkBatches (inp.rows.map normalizeRow), b ≠ [] ∧ b.length ≤ batchSize) := by
  have heq : load_csv_data inp
      = (mkBatches (inp.rows.map normalizeRow)).map .runImportBatch := by
    rw [load_csv_data, hex, hcols]
    simp
  refine ⟨heq, ?_, ?_, ?_⟩
  · rw [heq, List.length_map, mkBatches,
      loadBatchLoop_length (inp.rows.map normalizeRow) [] [] (by simp [batchSize])]
    simp
  · rw [mkBatches, loadBatchLoop_flatten]
    simp
  · intro b hb
    exact loadBatchLoop_mem (inp.rows.map normalizeRow) [] [] b (by simp) (by simp [batchSize]) hb

/-- A raw row with every column present, used by concrete witnesses. -/
def rawEx : RawRow :=
  { origin_station_code := some "LAX"
    destination_station_code := some "IAX"
    flight_number := some "42"
    fleet_type_description := some "B737"
    record_locator := some "AB12CD"
    loyalty_program_level := some "non-elite"
    generation := some "Boomer"
    feedback_ID := some "F1"
    food_satisfaction_score := some 3
    arrival_delay_minutes := some 5
    actual_flown_miles := some 100
    number_of_legs := some 1
    passenger_class := some "economy" }

/-- A build input whose CSV exists and whose header has all 13 columns. -/
def inpEx : BuildInput :=
  { csvExists := true
    cols := requiredCols
    rows := [rawEx] }

/-- Witness for the batching theorem on a one-row input: the hypotheses
hold concretely and the loader issues exactly one import transaction. -/
theorem loader_runs_one_transaction_per_batch_witness :
    inpEx.csvExists = true ∧ missingCols inpEx.cols = []
    ∧ (load_csv_data inpEx).length = 1 := by
  refine ⟨rfl, by decide, ?_⟩
  rw [(loader_runs_one_transaction_per_batch inpEx rfl (by decide)).2.1]
  decide

/-- A store state holding one pre-existing airport node, used to exhibit
that the build run does mutate the store before column validation. -/
def s0 : GraphState := { emptyGraph with airports := {"AAA"} }

/-- A build input whose CSV exists but whose header lacks `feedback_ID`
(and most other required columns). -/
def inpMissing : BuildInput :=
  { csvExists := true
    cols := ["origin_station_code"]
    rows := [] }

/-- C3 counterexample: on an input whose header lacks `feedback_ID` the
loader takes its schema-mismatch return and issues no store action, yet at
that moment the graph is NOT unmodified: `__main__` already executed the
`MATCH (n) DETACH DELETE n` wipe (and the constraint declarations) before
calling `load_csv_data`, so a pre-existing airport node is gone. -/
theorem store_mutated_before_missing_column_detected :
    load_csv_status inpMissing = .schemaMismatch (missingCols inpMissing.cols)
    ∧ load_csv_data inpMissing = []
    ∧ (applyTrace s0 (buildActions inpMissing)).airports ≠ s0.airports := by
  refine ⟨by decide, by decide, ?_⟩
  intro h
  have h2 : (∅ : Finset String) = {"AAA"} := h
  have h3 : "AAA" ∈ ({"AAA"} : Finset String) := Finset.mem_singleton_self _
  rw [← h2] at h3
  exact absurd h3 (Finset.not_mem_empty _)

/-- C3 (amended): whenever the CSV file is present and one or more of the
13 required columns are absent from the header, the loader takes its
schema-mismatch return path and issues no store action at all — in
particular no import write, so no partial import graph — and the whole
build trace is just the wipe plus the constraint declarations, leaving the
empty graph; the original claim's "no store mutation of any kind has
occurred and the graph is unmodified" fails only because that wipe and the
constraint phase run before the loader. -/
theorem missing_column_aborts_load_before_any_import_write
    (inp : BuildInput) (s : GraphState)
    (hex : inp.csvExists = true) (hm : missingCols inp.cols ≠ []) :
    load_csv_status inp = .schemaMismatch (missingCols inp.cols)
    ∧ load_csv_data inp = []
    ∧ buildActions inp = .clearDatabase :: constraintActions
    ∧ applyTrace s (buildActions inp) = emptyGraph := by
  have hne : (missingCols inp.cols).isEmpty = false := by
    rcases he : missingCols inp.cols with _ | ⟨x, xs⟩
    · exact absurd he hm
    · rfl
  have hstatus : load_csv_status inp = .schemaMismatch (missingCols inp.cols) := by
    rw [load_csv_status, hex]
    simp [hne]
  have hload : load_csv_data inp = [] := by
    rw [load_csv_data, hex]
    simp [hne]
  have hbuild : buildActions inp = .clearDatabase :: constraintActions := by
    rw [buildActions, hload, List.append_nil]
  refine ⟨hstatus, hload, hbuild, ?_⟩
  rw [hbuild]
  rfl

/-- Witness for the amended C3 theorem: on the concrete present file whose
header lacks `feedback_ID` (among others), the schema mismatch is detected,
the loader issues no action and the final graph is empty. -/
theorem missing_column_aborts_load_before_any_import_write_witness :
    inpMissing.csvExists = true
    ∧ missingCols inpMissing.cols ≠ []
    ∧ load_csv_status inpMissing = .schemaMismatch (missingCols inpMissing.cols)
    ∧ applyTrace s0 (buildActions inpMissing) = emptyGraph :=
  ⟨rfl, by decide,
   (missing_column_aborts_load_before_any_import_write inpMissing s0 rfl (by decide)).1,
   (missing_column_aborts_load_before_any_import_write inpMissing s0 rfl (by decide)).2.2.2⟩

/-- C9: every build run starts with the `MATCH (n) DETACH DELETE n` wipe —
it is the first store statement, before the constraint declarations and
before any import batch — so the graph produced by the build phase is the same
whatever the store contained beforehand: loading is never incremental over
pre-existing data. -/
theorem build_phase_wipes_database_first (inp : BuildInput) (s t : GraphState) :
    (buildActions inp).head? = some .clearDatabase
    ∧ applyTrace s (buildActions inp) = applyTrace t (buildActions inp)
    ∧ applyTrace s (buildActions inp) = applyTrace emptyGraph (buildActions inp) :=
  ⟨rfl, rfl, rfl⟩

/-- C7: for every raw input row, the journey attributes the import writes
are obtained by zero-filling an absent value and truncating toward zero
(Cypher `toInteger`), `passenger_class` is kept as the (string) value of
the normalized record, and the normalization producing that record is the
pure function `normalizeRow` — it issues no store action.  Truncation
toward zero means floor on nonnegative values and ceiling on negative
ones, so `2.9` becomes `2` (not the rounded `3`) and `-2.9` becomes `-2`
(not `-3`). -/
theorem journey_numerics_truncate_toward_zero (raw : RawRow) (s : GraphState) :
    (applyRow s (normalizeRow raw)).journeys ((normalizeRow raw).feedback_ID)
      = some { food_satisfaction_score := toInteger (raw.food_satisfaction_score.getD 0)
               arrival_delay_minutes := toInteger (raw.arrival_delay_minutes.getD 0)
               actual_flown_miles := toInteger (raw.actual_flown_miles.getD 0)
               number_of_legs := toInteger (raw.number_of_legs.getD 0)
               passenger_class := raw.passenger_class.getD "0" }
    ∧ (normalizeRow raw).passenger_class = raw.passenger_class.getD "0"
    ∧ toInteger (29 / 10) = 2
    ∧ toInteger (-(29 / 10)) = -2
    ∧ toInteger 0 = 0
    ∧ (∀ q : ℚ, 0 ≤ q → toInteger q = ⌊q⌋)
    ∧ (∀ q : ℚ, q < 0 → toInteger q = ⌈q⌉) := by
  refine ⟨?_, rfl, ?_, ?_, ?_, fun q h => ?_, fun q h => ?_⟩
  · simp [applyRow, journeyAttrs, normalizeRow]
  · rw [toInteger, if_pos (by norm_num)]
    norm_num
  · rw [toInteger, if_neg (by norm_num), Int.ceil_eq_iff]
    constructor <;> norm_num
  · rw [toInteger, if_pos le_rfl]
    simp
  · rw [toInteger, if_pos h]
  · rw [toInteger, if_neg (not_le.mpr h)]

/-- Witness for the truncation theorem: the floor and ceiling branches
applied at `5/2` and `-(5/2)`. -/
theorem journey_numerics_truncate_toward_zero_witness :
    ((0 : ℚ) ≤ 5 / 2 ∧ toInteger (5 / 2) = ⌊(5 / 2 : ℚ)⌋)
    ∧ ((-(5 / 2) : ℚ) < 0 ∧ toInteger (-(5 / 2)) = ⌈(-(5 / 2) : ℚ)⌉) :=
  ⟨⟨by norm_num,
    (journey_numerics_truncate_toward_zero rawEx emptyGraph).2.2.2.2.2.1 (5 / 2) (by norm_num)⟩,
   ⟨by norm_num,
    (journey_numerics_truncate_toward_zero rawEx emptyGraph).2.2.2.2.2.2 (-(5 / 2)) (by norm_num)⟩⟩

theorem splitEq_some (l : List Char) : ∀ (k v : List Char), splitEq l = some (k, v) →
    k ++ '=' :: v = l ∧ '=' ∉ k := by
  induction l with
  | nil => intro k v h; simp [splitEq] at h
  | cons c rest ih =>
    intro k v h
    rw [splitEq] at h
    by_cases hc : c = '='
    · rw [if_pos hc] at h
      obtain ⟨hk, hv⟩ : [] = k ∧ rest = v := by simpa using h
      subst hk
      subst hv
      exact ⟨by simp [hc], by simp⟩
    · rw [if_neg hc] at h
      cases hs : splitEq rest with
      | none => rw [hs] at h; simp at h
      | some kv =>
        obtain ⟨k0, v0⟩ := kv
        rw [hs] at h
        obtain ⟨hk, hv⟩ : c :: k0 = k ∧ v0 = v := by simpa using h
        subst hk
        subst hv
        obtain ⟨h1, h2⟩ := ih k0 v0 hs
        refine ⟨by rw [List.cons_append, h1], ?_⟩
        intro hm
        rcases List.mem_cons.mp hm with h3 | h3
        · exact hc h3.symm
        · exact h2 h3

theorem splitEq_eq_none_iff (l : List Char) : splitEq l = none ↔ '=' ∉ l := by
  induction l with
  | nil => simp [splitEq]
  | cons c rest ih =>
    rw [splitEq]
    by_cases hc : c = '='
    · rw [if_pos hc]
      simp [hc]
    · rw [if_neg hc]
      cases hs : splitEq rest with
      | none =>
        rw [hs] at ih
        simp only [List.mem_cons]
        constructor
        · intro _ hm
          rcases hm with h3 | h3
          · exact hc h3.symm
          · exact (ih.mp rfl) h3
        · intro _
          trivial
      | some kv =>
        obtain ⟨k0, v0⟩ := kv
        simp only [List.mem_cons]
        constructor
        · intro h3
          simp at h3
        · intro h3
          have hm : '=' ∈ rest := (splitEq_some rest k0 v0 hs).1 ▸ (by simp)
          exact absurd (Or.inr hm) h3

theorem mem_pyStrip (l : List Char) (c : Char) (h : c ∈ pyStrip l) : c ∈ l := by
  rw [pyStrip] at h
  rw [List.mem_reverse] at h
  have h2 := (List.dropWhile_sublist isPySpace).mem h
  rw [List.mem_reverse] at h2
  exact (List.dropWhile_sublist isPySpace).mem h2

/-- C8: when the configuration file is absent the whole run aborts before
any store interaction — the build program issues no driver/store action and
the verification program performs no driver interaction — and when the
file is present every line containing `'='` contributes exactly one
key/value pair obtained by splitting the stripped line at its first `'='`
(the key contains no `'='` and key, separator and value reassemble the
stripped line), while lines without `'='` are ignored. -/
theorem config_missing_aborts_before_store_interaction :
    (∀ inp, (kg_main none inp).actions = [])
    ∧ run_validation none = []
    ∧ (∀ (d : List (String × String)) (line : List Char),
        line.contains '=' = false → configLine d line = d)
    ∧ (∀ (line k v : List Char), splitEq (pyStrip line) = some (k, v) →
        k ++ '=' :: v = pyStrip line ∧ '=' ∉ k
        ∧ ∀ d : List (String × String),
            configLine d line = dictInsert d (String.mk k) (String.mk v)) := by
  refine ⟨fun inp => rfl, rfl, fun d line h => ?_, fun line k v h => ?_⟩
  · rw [configLine, if_neg (by simp_all)]
  · obtain ⟨h1, h2⟩ := splitEq_some (pyStrip line) k v h
    refine ⟨h1, h2, fun d => ?_⟩
    have hm : '=' ∈ line := mem_pyStrip line '=' (h1 ▸ (by simp))
    rw [configLine, if_pos (by simpa using hm), h]

/-- One concrete config line with surrounding blanks and a second `'='`
inside the value. -/
def cfgLineEx : List Char := ' ' :: 'U' :: 'R' :: 'I' :: '=' :: 'b' :: '=' :: '1' :: [' ']

/-- A separator-free config line. -/
def cfgLineNoEq : List Char := ['h', 'i']

/-- Witness for the config theorem: the concrete line splits at its first
`'='` only, and a line without `'='` leaves the dict unchanged. -/
theorem config_missing_aborts_before_store_interaction_witness :
    (cfgLineNoEq.contains '=' = false)
    ∧ configLine [] cfgLineNoEq = []
    ∧ splitEq (pyStrip cfgLineEx) = some (['U', 'R', 'I'], ['b', '=', '1'])
    ∧ configLine [] cfgLineEx
        = dictInsert [] (String.mk ['U', 'R', 'I']) (String.mk ['b', '=', '1']) :=
  ⟨by decide,
   config_missing_aborts_before_store_interaction.2.2.1 [] cfgLineNoEq (by decide),
   by decide,
   (config_missing_aborts_before_store_interaction.2.2.2 cfgLineEx
      ['U', 'R', 'I'] ['b', '=', '1'] (by decide)).2.2 []⟩

/-- C10: when the CSV file is missing or a required column is absent, the
loader prints an error and returns normally (no exception is raised on
these paths), so `__main__` still closes the driver and still prints
"Knowledge Graph created successfully!" — such load failures never put the
run into its error branch; no import transaction is issued. -/
theorem load_failures_still_print_success (lines : List (List Char)) (inp : BuildInput)
    (hcfg : (lines.foldl configLine []).isEmpty = false)
    (hload : load_csv_status inp ≠ .completed) :
    (kg_main (some lines) inp).printedSuccess = true
    ∧ (kg_main (some lines) inp).messages.getLast?
        = some "Knowledge Graph created successfully!"
    ∧ loadMessages inp ≠ []
    ∧ StoreAction.closeDriver ∈ (kg_main (some lines) inp).actions
    ∧ ∀ b, StoreAction.runImportBatch b ∉ (kg_main (some lines) inp).actions := by
  have hmain : kg_main (some lines) inp =
      { actions := .createDriver :: (buildActions inp ++ [.closeDriver])
        messages := loadMessages inp ++ ["Knowledge Graph created successfully!"]
        printedSuccess := true } := by
    rw [kg_main, load_config]
    simp [hcfg]
  have hempty : load_csv_data inp = [] := by
    rw [load_csv_data]
    cases hc : inp.csvExists
    · rfl
    · rw [load_csv_status, hc] at hload
      cases hm : (missingCols inp.cols).isEmpty
      · simp [hm]
      · simp [hm] at hload
  refine ⟨by rw [hmain], ?_, ?_, ?_, fun b => ?_⟩
  · rw [hmain]
    exact List.getLast?_concat _
  · rw [loadMessages]
    cases hs : load_csv_status inp
    · simp
    · simp
    · exact absurd hs hload
  · rw [hmain]
    simp [buildActions]
  · rw [hmain]
    simp [buildActions, hempty, constraintActions]

/-- The concrete config file content used by the C10 witness. -/
def cfgLinesEx : List (List Char) := [cfgLineEx]

/-- Witness for the C10 theorem on the concrete missing-column input: the
config dict is non-empty, the load does not complete, and the run still
reaches the success print. -/
theorem load_failures_still_print_success_witness :
    ((cfgLinesEx.foldl configLine []).isEmpty = false)
    ∧ load_csv_status inpMissing ≠ .completed
    ∧ (kg_main (some cfgLinesEx) inpMissing).printedSuccess = true :=
  ⟨by decide, by decide,
   (load_failures_still_print_success cfgLinesEx inpMissing (by decide) (by decide)).1⟩

end Airline
